import Mathlib

/-!
Verification of the ZFSBootMenu notcurses TUI wizard
(`src/tui/python/notcurses_ui.py`, `src/tui/python/notcurses_components.py`).

The wizard orchestration core is shallowly embedded: the mutable session
dictionary `self.state` becomes the structure `ConfigState`, the read-only
system facts become `SystemInfo`, and the screens' `show` methods become pure
functions from the state (plus the sequence of operator key inputs) to the
outcome value the Python method returns.  Rendering calls (`putstr_yx`,
`render`, colors) and `time.sleep` are display-only side effects with no
influence on state or outcomes and are elided.  Strings are modelled over the
ASCII range (Python's `str.isalnum` agrees with `Char.isAlphanum` there).
-/

namespace ZBM

/-- System facts gathered once at startup (`ZBMNotcursesTUI.load_system_info` /
`detect_system_info`): EFI flag, RAM in GB, CPU count, distro identity. -/
structure SystemInfo where
  is_efi : Bool
  ram_gb : Nat
  cpu_count : Nat
  distro : String
  distro_version : String
deriving DecidableEq, Repr

/-- The session configuration dictionary `self.state` built in
`ZBMNotcursesTUI.__init__` (notcurses_ui.py:48-62).  `mode` is `None` until
ModeSelect stores `"new"` or `"existing"`, hence `Option String`. -/
structure ConfigState where
  mode : Option String
  drives : List String
  pool_name : String
  raid_level : String
  bootloader : String
  compression : String
  ashift : String
  efi_size : String
  swap_size : String
  hostname : String
  source_root : String
  copy_home : Bool
  exclude_paths : List String
deriving DecidableEq, Repr

/-- The freshly constructed state of `ZBMNotcursesTUI.__init__`
(notcurses_ui.py:48-62), field for field. -/
def initialState : ConfigState :=
  { mode := none
    drives := []
    pool_name := "zroot"
    raid_level := "none"
    bootloader := "zbm"
    compression := "zstd"
    ashift := ""
    efi_size := "1G"
    swap_size := "8G"
    hostname := ""
    source_root := "/"
    copy_home := true
    exclude_paths := [] }

/-- One validation check result dictionary
(`{"name": ..., "passed": ..., "message": ..., "critical": ...}`). -/
structure CheckResult where
  name : String
  passed : Bool
  message : String
  critical : Bool
deriving DecidableEq, Repr

/-- Python `s.replace(c, "")`: remove every occurrence of the character. -/
def pyRemoveAll (s : List Char) (c : Char) : List Char :=
  s.filter (fun x => x ≠ c)

/-- Python `str.isalnum()` (ASCII range): true iff the string is non-empty and
every character is alphanumeric.  Note the empty string is NOT alnum. -/
def pyIsAlnum (s : List Char) : Bool :=
  !s.isEmpty && s.all (fun c => c.isAlphanum)

/-- ValidationScreen.run_validations (notcurses_components.py:471-547): the
ordered list of checks recomputed from the current state and system facts. -/
def run_validations (state : ConfigState) (info : SystemInfo) : List CheckResult :=
  -- Check 1: EFI system
  let is_efi := info.is_efi
  let check1 : CheckResult :=
    { name := "EFI System Check"
      passed := is_efi
      message := if is_efi then "System is EFI" else "BIOS not supported"
      critical := true }
  -- Check 2: Sufficient RAM
  let ram_gb := info.ram_gb
  let ram_ok : Bool := decide (2 ≤ ram_gb)
  let check2 : CheckResult :=
    { name := "RAM Check"
      passed := ram_ok
      message := if ram_ok then s!"{ram_gb}GB RAM available"
                 else s!"Only {ram_gb}GB RAM (need 2GB+)"
      critical := true }
  -- Check 3: Drives selected
  let drives := state.drives
  let ndrives := drives.length
  let drives_ok : Bool := decide (0 < ndrives)
  let check3 : CheckResult :=
    { name := "Drive Selection"
      passed := drives_ok
      message := if drives_ok then s!"{ndrives} drive(s) selected" else "No drives selected"
      critical := true }
  -- Check 4: RAID level valid for drive count
  let raid_level := state.raid_level
  let raidRes : Bool × String :=
    if raid_level = "mirror" ∧ drives.length < 2 then
      (false, "Mirror requires 2+ drives")
    else if raid_level ∈ ["raidz1", "raidz2", "raidz3"] then
      -- min_drives = {"raidz1": 3, "raidz2": 4, "raidz3": 5}[raid_level]
      let mind := (List.lookup raid_level [("raidz1", 3), ("raidz2", 4), ("raidz3", 5)]).getD 0
      if drives.length < mind then (false, s!"{raid_level} requires {mind}+ drives")
      else (true, s!"RAID level: {raid_level}")
    else (true, s!"RAID level: {raid_level}")
  let check4 : CheckResult :=
    { name := "RAID Configuration"
      passed := raidRes.1
      message := raidRes.2
      critical := true }
  -- Check 5: Pool name valid
  let pool_name := state.pool_name
  let pool_ok : Bool := decide (0 < pool_name.length) &&
    pyIsAlnum (pyRemoveAll (pyRemoveAll pool_name.data '_') '-')
  let check5 : CheckResult :=
    { name := "Pool Name"
      passed := pool_ok
      message := if pool_ok then s!"Pool name: {pool_name}" else "Invalid pool name"
      critical := true }
  -- Check 6: Hostname valid (for migration mode)
  let tail : List CheckResult :=
    if state.mode = some "existing" then
      let hostname := state.hostname
      let hostname_ok : Bool := decide (0 < hostname.length)
      [{ name := "Hostname"
         passed := hostname_ok
         message := if hostname_ok then s!"Hostname: {hostname}" else "Hostname not set"
         critical := false }]
    else []
  [check1, check2, check3, check4, check5] ++ tail

/-- `all(check["passed"] for check in self.checks if check["critical"])`
(notcurses_components.py:547). -/
def allCriticalPassed (checks : List CheckResult) : Bool :=
  (checks.filter (fun c => c.critical)).all (fun c => c.passed)

/-- The RAID Configuration entry of the computed results list (index 3 of
the fixed check order). -/
def raidCheckOf (s : ConfigState) (f : SystemInfo) : CheckResult :=
  ((run_validations s f)[3]?).getD { name := "", passed := false, message := "", critical := false }

/-- The Pool Name entry of the results list (index 4 of the fixed check order). -/
def poolCheckOf (s : ConfigState) (f : SystemInfo) : CheckResult :=
  ((run_validations s f)[4]?).getD { name := "", passed := false, message := "", critical := false }

/-- The results entries named "Hostname". -/
def hostnameResults (s : ConfigState) (f : SystemInfo) : List CheckResult :=
  (run_validations s f).filter (fun c => c.name = "Hostname")

/-- The key-handling loop at the bottom of ValidationScreen.show
(notcurses_components.py:605-612), given the already-computed `all_passed`
flag and the sequence of operator key identifiers; `none` when the key
sequence is exhausted without producing an outcome. -/
def validationLoop (all_passed : Bool) : List String → Option String
  | [] => none
  | key :: rest =>
    if (key = "\n" ∨ key = "\r") ∧ all_passed = true then some "valid"
    else if key = "escape" then some "back"
    else if key.toLower = "q" then some "quit"
    else validationLoop all_passed rest

/-- ValidationScreen.show (notcurses_components.py:549-612): runs the
validations once on entry, then loops on operator keys. -/
def validationShow (state : ConfigState) (info : SystemInfo) (keys : List String) :
    Option String :=
  let checks := run_validations state info
  let all_passed := allCriticalPassed checks
  validationLoop all_passed keys

/-- The validation branch of ZBMNotcursesTUI.run (notcurses_ui.py:239-247):
the next screen identifier paired with the (unchanged) configuration state;
`none` models quitting the loop or an exhausted key sequence. -/
def validationStep (s : ConfigState) (info : SystemInfo) (keys : List String) :
    Option (String × ConfigState) :=
  match validationShow s info keys with
  | some r =>
    if r = "back" then some ("settings", s)
    else if r = "quit" then none
    else if r = "valid" then some ("confirm", s)
    else some ("validation", s)
  | none => none

/-- One Settings field descriptor: the Python tuples
`(key, label, kind)` and `(key, label, kind, choices)`; `choices` is `[]`
for the three-element tuples. -/
structure FieldSpec where
  key : String
  label : String
  kind : String
  choices : List String
deriving DecidableEq, Repr

/-- SettingsScreen.__init__ (notcurses_components.py:312-336): the editable
field list, branching on `state.get("mode") == "existing"`. -/
def settingsFields (s : ConfigState) : List FieldSpec :=
  if s.mode = some "existing" then
    [⟨"pool_name", "Pool Name", "text", []⟩,
     ⟨"hostname", "Hostname", "text", []⟩,
     ⟨"compression", "Compression", "choice", ["lz4", "zstd", "gzip-9", "off"]⟩,
     ⟨"raid_level", "RAID Level", "choice", ["none", "mirror", "raidz1", "raidz2", "raidz3"]⟩,
     ⟨"bootloader", "Bootloader", "choice", ["zbm", "systemd-boot", "refind"]⟩,
     ⟨"ashift", "Ashift", "choice", ["auto", "9", "12", "13"]⟩,
     ⟨"efi_size", "EFI Size", "text", []⟩,
     ⟨"swap_size", "Swap Size", "text", []⟩,
     ⟨"source_root", "Source Root", "text", []⟩,
     ⟨"copy_home", "Copy /home", "bool", []⟩]
  else
    [⟨"pool_name", "Pool Name", "text", []⟩,
     ⟨"hostname", "Hostname", "text", []⟩,
     ⟨"compression", "Compression", "choice", ["lz4", "zstd", "gzip-9", "off"]⟩,
     ⟨"raid_level", "RAID Level", "choice", ["none", "mirror", "raidz1", "raidz2", "raidz3"]⟩,
     ⟨"bootloader", "Bootloader", "choice", ["zbm", "systemd-boot", "refind"]⟩,
     ⟨"ashift", "Ashift", "choice", ["auto", "9", "12", "13"]⟩,
     ⟨"efi_size", "EFI Size", "text", []⟩,
     ⟨"swap_size", "Swap Size", "text", []⟩]

/-- SettingsScreen.cycle_choice (notcurses_components.py:366-374).  `current`
is the field's present value (`self.state.get(field_key, choices[0])`; the
state dictionary always carries every field key).  `choices.index(current)`
advanced by one modulo the length; the `ValueError` fallback when `current`
is not in the list yields index 0.  `choices[idx]` is modelled with `getD`
(the option lists in `settingsFields` are all non-empty, and `idx` is always
in bounds). -/
def cycle_choice (current : String) (choices : List String) : String :=
  let idx := if current ∈ choices then (List.indexOf current choices + 1) % choices.length else 0
  choices.getD idx ""

/-- InstallationScreen.init_steps (notcurses_components.py:760-785): the
ordered step-name list, selected by `self.state.get("mode", "new")`. -/
def init_steps (s : ConfigState) : List String :=
  if s.mode = some "existing" then
    ["Checking device fitness",
     "Preparing target drives",
     "Creating partitions",
     "Setting up ZFS pool",
     "Mounting filesystems",
     "Copying system files",
     "Zapping network configuration",
     "Installing bootloader",
     "Finalizing installation"]
  else
    ["Checking device fitness",
     "Preparing target drives",
     "Creating partitions",
     "Setting up ZFS pool",
     "Installing base system",
     "Installing bootloader",
     "Finalizing installation"]

/-- `self.max_log_lines = 10` (notcurses_components.py:758). -/
def max_log_lines : Nat := 10

/-- InstallationScreen.add_log (notcurses_components.py:787-791): append, then
drop the oldest line when over capacity. -/
def add_log (log_lines : List String) (message : String) : List String :=
  let l := log_lines ++ [message]
  if max_log_lines < l.length then l.tail else l

/-- InstallationScreen.show (notcurses_components.py:871-893): free-runs
through every step (two log lines per step), ends with `current_step` at the
step count, and returns "success"; `update_display` and `time.sleep` are
display-only and elided.  Result: ((final current_step, final log_lines),
returned outcome). -/
def installationShow (s : ConfigState) : (Nat × List String) × String :=
  let steps := init_steps s
  let log := steps.foldl
    (fun acc step => add_log (add_log acc s!"Starting: {step}") s!"Completed: {step}") []
  ((steps.length, log), "success")

/-- The install branch of ZBMNotcursesTUI.run (notcurses_ui.py:259-267):
"success" goes to the completion screen, "failed" back to settings, anything
else ends the loop. -/
def installStep (s : ConfigState) : Option (String × ConfigState) :=
  let result := (installationShow s).2
  if result = "success" then some ("complete", s)
  else if result = "failed" then some ("settings", s)
  else none

/-- System facts making every critical check satisfiable. -/
def okInfo : SystemInfo :=
  { is_efi := true, ram_gb := 8, cpu_count := 4, distro := "debian", distro_version := "12" }

/-- A new-install configuration with one selected drive. -/
def okState : ConfigState :=
  { initialState with mode := some "new", drives := ["sda"] }

/-- A migration-mode configuration. -/
def migState : ConfigState :=
  { initialState with mode := some "existing", drives := ["sda"] }

/-- A new-install configuration used for mode comparisons. -/
def newState : ConfigState :=
  { initialState with mode := some "new" }

/-- Mirror RAID selected with only one drive. -/
def mirrorOneState : ConfigState :=
  { initialState with mode := some "new", drives := ["sda"], raid_level := "mirror" }

/-- The Hostname check produced when the hostname is empty. -/
def emptyHostnameCheck : CheckResult :=
  { name := "Hostname", passed := false, message := "Hostname not set", critical := false }

/-- If the key loop of the Validation screen ever produces the forward outcome
"valid", the `all_passed` flag it was given is true. -/
lemma validationLoop_eq_valid (ap : Bool) (keys : List String)
    (h : validationLoop ap keys = some "valid") : ap = true := by
  induction keys with
  | nil => simp [validationLoop] at h
  | cons k rest ih =>
    by_cases h1 : (k = "\n" ∨ k = "\r") ∧ ap = true
    · exact h1.2
    · rw [validationLoop, if_neg h1] at h
      by_cases h2 : k = "escape"
      · rw [if_pos h2] at h; exact absurd h (by decide)
      · rw [if_neg h2] at h
        by_cases h3 : k.toLower = "q"
        · rw [if_pos h3] at h; exact absurd h (by decide)
        · rw [if_neg h3] at h; exact ih h

/-- C1: the Validation screen returns the forward outcome "valid" only when
every critical check of the results computed on entering the screen passed;
with a failing critical check no key sequence can make `show` return "valid". -/
theorem validation_forward_gate (s : ConfigState) (f : SystemInfo) (keys : List String)
    (h : validationShow s f keys = some "valid") :
    allCriticalPassed (run_validations s f) = true := by
  unfold validationShow at h
  exact validationLoop_eq_valid _ keys h

/-- Witness for C1: a passing configuration where the continue key yields
"valid" and the gate theorem applies. -/
theorem validation_forward_gate_witness :
    validationShow okState okInfo ["\n"] = some "valid" ∧
    allCriticalPassed (run_validations okState okInfo) = true :=
  ⟨by decide, validation_forward_gate okState okInfo ["\n"] (by decide)⟩

/-- C6: going back from the Validation screen reaches the Settings screen with
the configuration record unchanged, field for field. -/
theorem validation_back_preserves_state (s : ConfigState) (f : SystemInfo) (keys : List String)
    (h : validationShow s f keys = some "back") :
    validationStep s f keys = some ("settings", s) := by
  unfold validationStep
  rw [h]
  rfl

/-- Witness for C6: backing out of Validation with the escape key keeps the
concrete configuration intact. -/
theorem validation_back_preserves_state_witness :
    validationStep okState okInfo ["escape"] = some ("settings", okState) :=
  validation_back_preserves_state okState okInfo ["escape"] (by decide)

/-- C4 counterexample: the freshly constructed configuration record does not
default `ashift` to "auto" (the value named Auto in the settings choice list);
it is initialized to the empty string. -/
theorem initial_ashift_not_auto : ¬(initialState.ashift = "auto") := by decide

/-- C4 amended: the freshly constructed configuration record has exactly the
claimed defaults except that `ashift` defaults to the empty string. -/
theorem initial_defaults :
    initialState.pool_name = "zroot" ∧ initialState.raid_level = "none" ∧
    initialState.bootloader = "zbm" ∧ initialState.compression = "zstd" ∧
    initialState.ashift = "" ∧ initialState.efi_size = "1G" ∧
    initialState.swap_size = "8G" ∧ initialState.copy_home = true ∧
    initialState.drives = [] ∧ initialState.mode = none := by decide

/-- C5 counterexample: migration mode exposes 2 extra settings fields over
new-install mode, not 4. -/
theorem settings_extra_fields_count_cex :
    (settingsFields migState).length = (settingsFields newState).length + 2 ∧
    (settingsFields migState).length ≠ (settingsFields newState).length + 4 := by decide

/-- C5 amended: the Settings field set branches on mode, and migration mode
exposes exactly the new-install field set plus 2 extra fields, Source Root and
Copy /home. -/
theorem settings_fields_mode_diff (s t : ConfigState)
    (hs : s.mode = some "existing") (ht : t.mode ≠ some "existing") :
    settingsFields s = settingsFields t ++
      [⟨"source_root", "Source Root", "text", []⟩, ⟨"copy_home", "Copy /home", "bool", []⟩] := by
  unfold settingsFields
  rw [if_pos hs, if_neg ht]
  rfl

/-- Witness for amended C5 at the concrete migration and new-install states. -/
theorem settings_fields_mode_diff_witness :
    settingsFields migState = settingsFields newState ++
      [⟨"source_root", "Source Root", "text", []⟩, ⟨"copy_home", "Copy /home", "bool", []⟩] :=
  settings_fields_mode_diff migState newState (by decide) (by decide)

/-- C9: the install step list has nine steps in migration mode and seven in
new-install mode, and always starts with "Checking device fitness" and ends
with "Finalizing installation". -/
theorem install_steps_spec (s : ConfigState) :
    (s.mode = some "existing" → (init_steps s).length = 9) ∧
    (s.mode = some "new" → (init_steps s).length = 7) ∧
    (init_steps s).head? = some "Checking device fitness" ∧
    (init_steps s).getLast? = some "Finalizing installation" := by
  by_cases h : s.mode = some "existing"
  · unfold init_steps
    rw [if_pos h]
    refine ⟨fun _ => by decide, fun hn => ?_, by decide, by decide⟩
    rw [h] at hn
    exact absurd (Option.some.inj hn) (by decide)
  · unfold init_steps
    rw [if_neg h]
    exact ⟨fun he => absurd he h, fun _ => by decide, by decide, by decide⟩

/-- Witness for C9 at the concrete migration and new-install states. -/
theorem install_steps_spec_witness :
    (init_steps migState).length = 9 ∧ (init_steps newState).length = 7 :=
  ⟨(install_steps_spec migState).1 (by decide), (install_steps_spec newState).2.1 (by decide)⟩

/-- The Pool Name check's pass flag, reduced to its defining expression. -/
lemma poolCheckOf_passed (s : ConfigState) (f : SystemInfo) :
    (poolCheckOf s f).passed =
      (decide (0 < s.pool_name.length) &&
        pyIsAlnum (pyRemoveAll (pyRemoveAll s.pool_name.data '_') '-')) := by
  simp [poolCheckOf, run_validations]

/-- C2 counterexample: the pool name "_" is non-empty and each of its
characters is alphanumeric, an underscore, or a hyphen, yet the Pool Name
check fails (Python's str.isalnum is false on the empty string left after the
underscores and hyphens are stripped). -/
theorem pool_name_claim_cex :
    (0 < ("_" : String).length ∧
      ∀ c ∈ ("_" : String).data, c.isAlphanum = true ∨ c = '_' ∨ c = '-') ∧
    (poolCheckOf { okState with pool_name := "_" } okInfo).passed = false := by decide

/-- C2 amended: the Pool Name check passes iff every character of the pool
name is alphanumeric, an underscore, or a hyphen, AND at least one character
is alphanumeric (which forces the name to be non-empty); a name made solely of
underscores and hyphens fails even though it is non-empty and within the
character set. -/
theorem pool_name_check_amended (s : ConfigState) (f : SystemInfo) :
    (poolCheckOf s f).passed = true ↔
      ((∀ c ∈ s.pool_name.data, c.isAlphanum = true ∨ c = '_' ∨ c = '-') ∧
       ∃ c ∈ s.pool_name.data, c.isAlphanum = true) := by
  rw [poolCheckOf_passed]
  unfold pyIsAlnum pyRemoveAll
  simp
  constructor
  · rintro ⟨hlen, ⟨x, hx, hxd, hxu⟩, hall⟩
    refine ⟨fun c hc => ?_, x, hx, ?_⟩
    · rcases hall c hc with h | h | h
      · exact Or.inr (Or.inr h)
      · exact Or.inr (Or.inl h)
      · exact Or.inl h
    · rcases hall x hx with h | h | h
      · exact absurd h hxd
      · exact absurd h hxu
      · exact h
  · rintro ⟨hall, x, hx, halnum⟩
    have hxd : ¬ x = '-' := fun h => by rw [h] at halnum; exact absurd halnum (by decide)
    have hxu : ¬ x = '_' := fun h => by rw [h] at halnum; exact absurd halnum (by decide)
    refine ⟨?_, ⟨x, hx, hxd, hxu⟩, fun c hc => ?_⟩
    · exact List.length_pos.mpr (List.ne_nil_of_mem hx)
    · rcases hall c hc with h | h | h
      · exact Or.inr (Or.inr h)
      · exact Or.inr (Or.inl h)
      · exact Or.inl h

/-- Witness for amended C2: the default pool name "zroot" satisfies the
amended characterization at a concrete state. -/
theorem pool_name_check_amended_witness :
    (poolCheckOf okState okInfo).passed = true ↔
      ((∀ c ∈ okState.pool_name.data, c.isAlphanum = true ∨ c = '_' ∨ c = '-') ∧
       ∃ c ∈ okState.pool_name.data, c.isAlphanum = true) :=
  pool_name_check_amended okState okInfo

/-- C3: for each RAID level with a minimum (mirror needs 2, raidz1 needs 3,
raidz2 needs 4, raidz3 needs 5), a drive count below the minimum makes the
RAID Configuration check fail with a message naming that exact minimum and
makes allCriticalPassed false; a count at or above the minimum makes it pass,
and level "none" always passes. -/
theorem raid_minimums (s : ConfigState) (f : SystemInfo) :
    (s.raid_level = "mirror" →
      (s.drives.length < 2 →
        (raidCheckOf s f).passed = false ∧
        (raidCheckOf s f).message = "Mirror requires 2+ drives" ∧
        allCriticalPassed (run_validations s f) = false) ∧
      (2 ≤ s.drives.length → (raidCheckOf s f).passed = true)) ∧
    (s.raid_level = "raidz1" →
      (s.drives.length < 3 →
        (raidCheckOf s f).passed = false ∧
        (raidCheckOf s f).message = "raidz1 requires 3+ drives" ∧
        allCriticalPassed (run_validations s f) = false) ∧
      (3 ≤ s.drives.length → (raidCheckOf s f).passed = true)) ∧
    (s.raid_level = "raidz2" →
      (s.drives.length < 4 →
        (raidCheckOf s f).passed = false ∧
        (raidCheckOf s f).message = "raidz2 requires 4+ drives" ∧
        allCriticalPassed (run_validations s f) = false) ∧
      (4 ≤ s.drives.length → (raidCheckOf s f).passed = true)) ∧
    (s.raid_level = "raidz3" →
      (s.drives.length < 5 →
        (raidCheckOf s f).passed = false ∧
        (raidCheckOf s f).message = "raidz3 requires 5+ drives" ∧
        allCriticalPassed (run_validations s f) = false) ∧
      (5 ≤ s.drives.length → (raidCheckOf s f).passed = true)) ∧
    (s.raid_level = "none" → (raidCheckOf s f).passed = true) := by
  refine ⟨fun hm => ⟨fun hlt => ⟨?_, ?_, ?_⟩, fun hge => ?_⟩,
          fun hm => ⟨fun hlt => ⟨?_, ?_, ?_⟩, fun hge => ?_⟩,
          fun hm => ⟨fun hlt => ⟨?_, ?_, ?_⟩, fun hge => ?_⟩,
          fun hm => ⟨fun hlt => ⟨?_, ?_, ?_⟩, fun hge => ?_⟩,
          fun hm => ?_⟩
  · simp [raidCheckOf, run_validations, hm, hlt]
  · simp [raidCheckOf, run_validations, hm, hlt]
  · simp [allCriticalPassed, run_validations, hm, hlt, List.filter_append, List.all_append]
  · have hnlt := Nat.not_lt.mpr hge
    simp [raidCheckOf, run_validations, hm, hnlt]
  · simp [raidCheckOf, run_validations, hm, hlt, List.lookup]
  · simp [raidCheckOf, run_validations, hm, hlt, List.lookup]; decide
  · simp [allCriticalPassed, run_validations, hm, hlt, List.lookup,
      List.filter_append, List.all_append]
  · have hnlt := Nat.not_lt.mpr hge
    simp [raidCheckOf, run_validations, hm, hnlt, List.lookup]
  · simp [raidCheckOf, run_validations, hm, hlt, List.lookup]
  · simp [raidCheckOf, run_validations, hm, hlt, List.lookup]; decide
  · simp [allCriticalPassed, run_validations, hm, hlt, List.lookup,
      List.filter_append, List.all_append]
  · have hnlt := Nat.not_lt.mpr hge
    simp [raidCheckOf, run_validations, hm, hnlt, List.lookup]
  · simp [raidCheckOf, run_validations, hm, hlt, List.lookup]
  · simp [raidCheckOf, run_validations, hm, hlt, List.lookup]; decide
  · simp [allCriticalPassed, run_validations, hm, hlt, List.lookup,
      List.filter_append, List.all_append]
  · have hnlt := Nat.not_lt.mpr hge
    simp [raidCheckOf, run_validations, hm, hnlt, List.lookup]
  · simp [raidCheckOf, run_validations, hm]

/-- Witness for C3: mirror with a single drive fails, the message names the
minimum of 2, and allCriticalPassed is false. -/
theorem raid_minimums_witness :
    (raidCheckOf mirrorOneState okInfo).passed = false ∧
    (raidCheckOf mirrorOneState okInfo).message = "Mirror requires 2+ drives" ∧
    allCriticalPassed (run_validations mirrorOneState okInfo) = false :=
  ((raid_minimums mirrorOneState okInfo).1 (by decide)).1 (by decide)

/-- C7: a check named Hostname appears in the results iff the mode is
migration ("existing"); any such check is non-critical and passes iff the
hostname is non-empty; and the hostname value never influences
allCriticalPassed, so an empty hostname never blocks progress. -/
theorem hostname_check_spec (s : ConfigState) (f : SystemInfo) :
    (hostnameResults s f ≠ [] ↔ s.mode = some "existing") ∧
    (∀ c ∈ hostnameResults s f,
      c.critical = false ∧ (c.passed = true ↔ 0 < s.hostname.length)) ∧
    (∀ h, allCriticalPassed (run_validations { s with hostname := h } f) =
      allCriticalPassed (run_validations s f)) := by
  by_cases hmode : s.mode = some "existing"
  · refine ⟨?_, ?_, ?_⟩
    · simp [hostnameResults, run_validations, hmode, List.filter_append]
    · intro c hc
      simp [hostnameResults, run_validations, hmode, List.filter_append] at hc
      subst hc
      simp
    · intro h
      simp [allCriticalPassed, run_validations, hmode, List.filter_append, List.all_append]
  · refine ⟨?_, ?_, ?_⟩
    · simp [hostnameResults, run_validations, hmode, List.filter_append]
    · intro c hc
      simp [hostnameResults, run_validations, hmode, List.filter_append] at hc
    · intro h
      simp [allCriticalPassed, run_validations, hmode, List.filter_append, List.all_append]

/-- Witness for C7: in the concrete migration state with an empty hostname,
the Hostname check is present, non-critical, and failing. -/
theorem hostname_check_spec_witness :
    emptyHostnameCheck.critical = false ∧
    (emptyHostnameCheck.passed = true ↔ 0 < migState.hostname.length) :=
  (hostname_check_spec migState okInfo).2.1 emptyHostnameCheck (by decide)

/-- Cycling a value that is not in the option list falls back to index 0. -/
lemma cycle_choice_not_mem (v : String) (cs : List String) (hv : v ∉ cs) :
    cycle_choice v cs = cs.getD 0 "" := by
  unfold cycle_choice
  rw [if_neg hv]

/-- One cycle step moves the i-th option to the (i+1 mod length)-th option
when the option list has no duplicates. -/
lemma cycle_choice_getD (cs : List String) (hnd : cs.Nodup) (i : Nat) (hi : i < cs.length) :
    cycle_choice (cs.getD i "") cs = cs.getD ((i + 1) % cs.length) "" := by
  have hlen : 0 < cs.length := Nat.lt_of_le_of_lt (Nat.zero_le i) hi
  have hmod : (i + 1) % cs.length < cs.length := Nat.mod_lt _ hlen
  simp only [cycle_choice]
  rw [List.getD_eq_getElem _ _ hi]
  rw [if_pos (List.getElem_mem hi)]
  rw [List.indexOf_getElem hnd i hi]

/-- Iterating the cycle k times from the i-th option lands on option
(i+k) mod length. -/
lemma cycle_choice_iterate (cs : List String) (hnd : cs.Nodup) (k : Nat) :
    ∀ i, i < cs.length →
      (fun x => cycle_choice x cs)^[k] (cs.getD i "") = cs.getD ((i + k) % cs.length) "" := by
  induction k with
  | zero => intro i hi; simp [Nat.mod_eq_of_lt hi]
  | succ k ih =>
    intro i hi
    have hlen : 0 < cs.length := Nat.lt_of_le_of_lt (Nat.zero_le i) hi
    rw [Function.iterate_succ_apply, cycle_choice_getD cs hnd i hi,
      ih ((i + 1) % cs.length) (Nat.mod_lt _ hlen)]
    congr 1
    rw [Nat.mod_add_mod]
    congr 1
    omega

/-- Cycling length-many times from a member of a duplicate-free option list
returns to it. -/
lemma cycle_choice_wrap_nodup (cs : List String) (hnd : cs.Nodup) (v : String) (hv : v ∈ cs) :
    (fun x => cycle_choice x cs)^[cs.length] v = v := by
  obtain ⟨i, hi, heq⟩ := List.getElem_of_mem hv
  have hv2 : cs.getD i "" = v := by rw [List.getD_eq_getElem _ _ hi]; exact heq
  rw [← hv2, cycle_choice_iterate cs hnd cs.length i hi]
  have hmod : (i + cs.length) % cs.length = i := by
    rw [Nat.add_mod_right]
    exact Nat.mod_eq_of_lt hi
  rw [hmod, hv2]

/-- C8: for every cyclic-choice field of the Settings screen, cycling as many
times as the field has options returns the field to its original value, and
cycling a current value that is not in the option list yields the option at
index 0. -/
theorem cycle_choice_wraps (s : ConfigState) (fld : FieldSpec)
    (hmem : fld ∈ settingsFields s) (hkind : fld.kind = "choice") :
    (∀ v ∈ fld.choices,
      (fun x => cycle_choice x fld.choices)^[fld.choices.length] v = v) ∧
    (∀ v, v ∉ fld.choices → cycle_choice v fld.choices = fld.choices.getD 0 "") := by
  have hnd : fld.choices.Nodup := by
    unfold settingsFields at hmem
    split at hmem <;> fin_cases hmem <;>
      first
        | exact absurd hkind (by decide)
        | decide
  exact ⟨fun v hv => cycle_choice_wrap_nodup _ hnd v hv,
         fun v hv => cycle_choice_not_mem v _ hv⟩

/-- Witness for C8: cycling the compression field's four options four times
from "lz4" returns "lz4", and cycling an unknown value falls back to the first
option. -/
theorem cycle_choice_wraps_witness :
    (fun x => cycle_choice x ["lz4", "zstd", "gzip-9", "off"])^[4] "lz4" = "lz4" ∧
    cycle_choice "flac" ["lz4", "zstd", "gzip-9", "off"] =
      (["lz4", "zstd", "gzip-9", "off"] : List String).getD 0 "" :=
  ⟨(cycle_choice_wraps newState
      ⟨"compression", "Compression", "choice", ["lz4", "zstd", "gzip-9", "off"]⟩
      (by decide) rfl).1 "lz4" (by decide),
   (cycle_choice_wraps newState
      ⟨"compression", "Compression", "choice", ["lz4", "zstd", "gzip-9", "off"]⟩
      (by decide) rfl).2 "flac" (by decide)⟩

/-- C10: the Install screen's show always returns "success" after free-running
through every step, so the orchestrator always advances to the completion
screen and the backend-failure transition back to Settings is unreachable. -/
theorem install_always_succeeds (s : ConfigState) :
    (installationShow s).2 = "success" ∧ installStep s = some ("complete", s) ∧
    installStep s ≠ some ("settings", s) := by
  refine ⟨rfl, rfl, fun h => ?_⟩
  have h2 : "complete" = "settings" := congrArg Prod.fst (Option.some.inj h)
  exact absurd h2 (by decide)

/-- Witness for C10 at a concrete configuration. -/
theorem install_always_succeeds_witness :
    (installationShow okState).2 = "success" ∧
    installStep okState = some ("complete", okState) ∧
    installStep okState ≠ some ("settings", okState) :=
  install_always_succeeds okState

end ZBM
